import Mathlib

/-!
Shallow embedding of `sms_plusserver.py` (W-Z-FinTech-GmbH/sms_plusserver).

The network transport (`requests.post`) is abstracted by an `HttpOutcome`
oracle: either the transport raised a `requests.RequestException` (modelled
by a `TransportFault` carrying its `HTTPError` / `Timeout` class membership
and its textual rendering) or the exchange produced a response body.
Wall-clock readings of `datetime.datetime.now()` are abstracted by a clock
oracle handing each polling iteration its pair of timestamps; durations are
rationals (seconds).  Raised exceptions are modelled with `Except`.
-/

namespace SmsPlusserver

/-- Python truthiness of an `Optional[str]`: `None` and `''` are falsy. -/
def pyTruthyStr : Option String → Bool
  | none => false
  | some s => s ≠ ""

/-- Python truthiness of an `Optional[float]` (no NaN in the model):
`None` and `0.0` are falsy. -/
def pyTruthyFloat : Option ℚ → Bool
  | none => false
  | some x => x ≠ 0

/-- Python truthiness of an `Optional[int]`: `None` and `0` are falsy. -/
def pyTruthyInt : Option Int → Bool
  | none => false
  | some n => n ≠ 0

/-- The characters `str.splitlines` treats as line boundaries
(`\n`, `\r`, `\v`, `\f`, FS/GS/RS, NEL, LINE SEPARATOR, PARAGRAPH
SEPARATOR; `\r\n` is handled as a single boundary by the scanner). -/
def isLineBoundary (c : Char) : Bool :=
  c = '\n' || c = '\r' || c.val = 0x0b || c.val = 0x0c ||
  c.val = 0x1c || c.val = 0x1d || c.val = 0x1e ||
  c.val = 0x85 || c.val = 0x2028 || c.val = 0x2029

/-- Scanner for `str.splitlines`: `acc` holds the current line reversed. -/
def splitlinesGo : List Char → List Char → List String
  | [], acc => if acc.isEmpty then [] else [String.mk acc.reverse]
  | '\r' :: '\n' :: rest, acc => String.mk acc.reverse :: splitlinesGo rest []
  | c :: rest, acc =>
    if isLineBoundary c then String.mk acc.reverse :: splitlinesGo rest []
    else splitlinesGo rest (c :: acc)

/-- Python `str.splitlines()` (keepends=False). -/
def pySplitlines (s : String) : List String :=
  splitlinesGo s.toList []

/-- The characters `str.strip()` removes: those for which `str.isspace`
holds (ASCII whitespace, the C0 separators, NEL, NBSP and the Unicode
space separators). -/
def isPySpace (c : Char) : Bool :=
  c = ' ' || c = '\t' || c = '\n' || c = '\r' || c.val = 0x0b || c.val = 0x0c ||
  (0x1c ≤ c.val && c.val ≤ 0x1f) || c.val = 0x85 || c.val = 0xa0 ||
  c.val = 0x1680 || (0x2000 ≤ c.val && c.val ≤ 0x200a) ||
  c.val = 0x2028 || c.val = 0x2029 || c.val = 0x202f || c.val = 0x205f ||
  c.val = 0x3000

/-- Python `str.strip()` with no argument. -/
def pyStrip (s : String) : String :=
  String.mk (((s.toList.dropWhile isPySpace).reverse.dropWhile isPySpace).reverse)

/-- Python `line.split('=', 1)` on a line known to contain `'='`:
the text before the first `'='` and the remainder after it. -/
def splitFirstEq : List Char → List Char × List Char
  | [] => ([], [])
  | '=' :: rest => ([], rest)
  | c :: rest =>
    let p := splitFirstEq rest
    (c :: p.1, p.2)

/-- `collections.OrderedDict` assignment `d[key] = value`: an existing
key keeps its position and gets the new value, a new key is appended. -/
def odInsert (d : List (String × String)) (key value : String) :
    List (String × String) :=
  if d.any (fun p => p.1 = key) then
    d.map (fun p => if p.1 = key then (key, value) else p)
  else
    d ++ [(key, value)]

/-- Ordered-dict lookup (keys are unique in any list built by `odInsert`):
the value at the first — hence only — entry with the given key. -/
def odFind : List (String × String) → String → Option String
  | [], _ => none
  | p :: rest, key => if p.1 = key then some p.2 else odFind rest key

/-- `SMSResponse`: message line plus the ordered attribute mapping. -/
structure SMSResponse where
  message : String
  data : List (String × String)
deriving Repr, DecidableEq

/-- SMS response message choices (module constants). -/
def MESSAGE_OK : String := "REQUEST OK"

def MESSAGE_ERROR : String := "ERROR"

/-- SMS state choices (module constants). -/
def STATE_ARRIVED : String := "arrived"

def STATE_PROCESSED : String := "processed"

/-- The body of the `for line in lines` loop of `SMSResponse.__init__`:
a line containing `'='` is split at the first `'='` and its stripped key
and value are assigned into the ordered dict; other lines are skipped. -/
def parseLine (d : List (String × String)) (line : String) :
    List (String × String) :=
  if line.toList.contains '=' then
    let p := splitFirstEq line.toList
    odInsert d (pyStrip (String.mk p.1)) (pyStrip (String.mk p.2))
  else d

/-- `SMSResponse.__init__`: pop the first line as the message (empty
string when there are no lines), then fill the ordered dict from the
remaining lines via `parseLine`. -/
def SMSResponse.parse (response_text : String) : SMSResponse :=
  let lines := pySplitlines response_text
  ⟨lines.headD "", lines.tail.foldl parseLine []⟩

/-- `SMSResponse.get(key)` (default `None`). -/
def SMSResponse.get (r : SMSResponse) (key : String) : Option String :=
  odFind r.data key

/-- `SMSResponse.handle_id` property. -/
def SMSResponse.handle_id (r : SMSResponse) : Option String :=
  r.get "handle"

/-- `SMSResponse.state` property. -/
def SMSResponse.state (r : SMSResponse) : Option String :=
  r.get "state"

/-- `SMSResponse.error` property. -/
def SMSResponse.error (r : SMSResponse) : Option String :=
  r.get "error"

/-- `SMSResponse.is_ok` property. -/
def SMSResponse.is_ok (r : SMSResponse) : Bool :=
  r.message = MESSAGE_OK

/-- `SMSResponse.is_error` property. -/
def SMSResponse.is_error (r : SMSResponse) : Bool :=
  r.message = MESSAGE_ERROR

/-- A raised `requests.RequestException`, abstracted: whether it is an
instance of `requests.HTTPError`, whether it is an instance of
`requests.Timeout`, and its `str(...)` rendering. -/
structure TransportFault where
  isHTTPError : Bool
  isTimeout : Bool
  text : String
deriving DecidableEq, Repr

/-- Outcome of one `requests.post`: either the transport raised a
`requests.RequestException`, or it returned a response body (the case
`raise_for_status` succeeding; an HTTP error status is a fault with
`isHTTPError = true`). -/
inductive HttpOutcome
  | fault (error : TransportFault)
  | response (text : String)
deriving DecidableEq, Repr

/-- The four exception classes deriving from `SMSServiceError`. -/
inductive ErrKind
  | configuration
  | validation
  | communication
  | request
deriving DecidableEq, Repr

/-- An `SMSServiceError` instance: its class, its message and its
`original_exception`. -/
structure SMSServiceError where
  kind : ErrKind
  message : String
  original_exception : Option TransportFault
deriving DecidableEq, Repr

/-- Python `str` of an `Optional` exception (`str(None) = "None"`). -/
def pyStrOfFault : Option TransportFault → String
  | none => "None"
  | some f => f.text

/-- `SMSServiceError.__init__`: `message = message or str(original_exception)`. -/
def SMSServiceError.init (kind : ErrKind) (message : Option String)
    (original_exception : Option TransportFault) : SMSServiceError :=
  { kind := kind
    message :=
      if pyTruthyStr message then message.getD ""
      else pyStrOfFault original_exception
    original_exception := original_exception }

/-- `SMSServiceError.is_timeout`: `self.original_exception and
isinstance(self.original_exception, requests.Timeout)`, as a boolean. -/
def SMSServiceError.is_timeout (e : SMSServiceError) : Bool :=
  match e.original_exception with
  | none => false
  | some f => f.isTimeout

/-- The `except requests.RequestException` classification in
`SMSService._request`: `HTTPError` becomes `RequestError`, any other
transport fault becomes `CommunicationError`; the fault is wrapped as
`original_exception`. -/
def classifyFault (error : TransportFault) : SMSServiceError :=
  let exception_kind := if error.isHTTPError then ErrKind.request
    else ErrKind.communication
  SMSServiceError.init exception_kind none (some error)

/-- One POST issued by `_request` (url, form data, basic auth, timeout). -/
structure PostCall where
  url : String
  data : List (String × String)
  auth : Option (String × String)
  timeout : Option ℚ
deriving DecidableEq, Repr

/-- `SMSService._request`: issue one POST (the list of `PostCall`s made is
returned alongside the result), classify a transport fault, parse the body
otherwise, and classify an `ERROR` message; `fail_silently` downgrades the
classified error to a `None` result. -/
def requestApi (url : String) (data : List (String × String))
    (auth : Option (String × String)) (timeout : Option ℚ)
    (fail_silently : Bool) (outcome : HttpOutcome) :
    Except SMSServiceError (Option SMSResponse) × List PostCall :=
  let post : PostCall := ⟨url, data, auth, timeout⟩
  match outcome with
  | .fault error =>
    let exception := classifyFault error
    if !fail_silently then (.error exception, [post])
    else (.ok none, [post])
  | .response text =>
    let sms_response := SMSResponse.parse text
    if sms_response.is_error then
      let exception := SMSServiceError.init .request sms_response.error none
      if !fail_silently then (.error exception, [post])
      else (.ok none, [post])
    else (.ok (some sms_response), [post])

/-- `SMSService` configuration state (the attribute values held by the
client object). -/
structure SMSService where
  put_url : String
  sms_state_url : String
  project : String
  username : Option String
  password : Option String
  orig : Option String
  encoding : Option String
  max_parts : Option Int
  timeout : Option ℚ
deriving DecidableEq, Repr

/-- `str(int(b))` for a Python bool. -/
def pyStrOfBoolInt (b : Bool) : String :=
  if b then "1" else "0"

/-- `SMSService.put_sms`: credentials check, POST data assembly, timeout
fallback (`if timeout is None`), then `_request`. -/
def SMSService.put_sms (svc : SMSService) (destination text : String)
    (orig : Option String) (registered_delivery : Bool) (debug : Bool)
    (project : Option String) (encoding : Option String)
    (max_parts : Option Int) (timeout : Option ℚ) (fail_silently : Bool)
    (outcome : HttpOutcome) :
    Except SMSServiceError (Option SMSResponse) × List PostCall :=
  if !(pyTruthyStr svc.username && pyTruthyStr svc.password) then
    (.error (SMSServiceError.init .configuration
      (some "Service credentials not defined") none), [])
  else
    let auth := some (svc.username.getD "", svc.password.getD "")
    let data := [("dest", destination), ("data", text),
                 ("debug", pyStrOfBoolInt debug),
                 ("project", if pyTruthyStr project then project.getD ""
                   else svc.project),
                 ("registered_delivery", pyStrOfBoolInt registered_delivery)]
    let orig := if pyTruthyStr orig then orig else svc.orig
    let data := if pyTruthyStr orig then data ++ [("orig", orig.getD "")]
      else data
    let encoding := if pyTruthyStr encoding then encoding else svc.encoding
    let data := if pyTruthyStr encoding then data ++ [("enc", encoding.getD "")]
      else data
    let max_parts := if pyTruthyInt max_parts then max_parts else svc.max_parts
    let data := if pyTruthyInt max_parts then
        data ++ [("maxparts", toString (max_parts.getD 0))]
      else data
    let timeout := match timeout with
      | none => svc.timeout
      | some t => some t
    requestApi svc.put_url data auth timeout fail_silently outcome

/-- `SMSService.check_sms_state`: credentials check, handle check, timeout
fallback (`if timeout is None`), then `_request`. -/
def SMSService.check_sms_state (svc : SMSService) (handle_id : Option String)
    (timeout : Option ℚ) (fail_silently : Bool) (outcome : HttpOutcome) :
    Except SMSServiceError (Option SMSResponse) × List PostCall :=
  if !(pyTruthyStr svc.username && pyTruthyStr svc.password) then
    (.error (SMSServiceError.init .configuration
      (some "Service credentials not defined") none), [])
  else if !pyTruthyStr handle_id then
    (.error (SMSServiceError.init .validation
      (some "Unable to check state of unsent SMS") none), [])
  else
    let auth := some (svc.username.getD "", svc.password.getD "")
    let data := [("handle", handle_id.getD "")]
    let timeout := match timeout with
      | none => svc.timeout
      | some t => some t
    requestApi svc.sms_state_url data auth timeout fail_silently outcome

/-- `SMSService.CHECK_STATE_WAIT_BETWEEN_CALLS` (seconds). -/
def CHECK_STATE_WAIT_BETWEEN_CALLS : ℚ := 1 / 2

/-- The top-of-loop condition of `wait_until_arrived`:
`remaining_timeout is None or remaining_timeout > 0`. -/
def budgetAllows : Option ℚ → Bool
  | none => true
  | some r => decide (0 < r)

/-- Result of a `wait_until_arrived` run: normal return, a propagated
`SMSServiceError`, a Python `AttributeError` (only reachable if an inner
non-silent check could yield `None`, which it cannot), or fuel exhaustion
(the loop is still running after the given number of iterations).  Each
constructor records how many inner state-check attempts were made. -/
inductive WaitResult
  | ret (state_response : Option SMSResponse) (attempts : Nat)
  | raised (e : SMSServiceError) (attempts : Nat)
  | attrError (attempts : Nat)
  | outOfFuel (remaining_timeout : Option ℚ) (state_response : Option SMSResponse)
      (attempts : Nat)
deriving DecidableEq, Repr

/-- Has the loop settled (returned or raised), as opposed to running out
of fuel while still iterating? -/
def WaitResult.isSettled : WaitResult → Bool
  | .outOfFuel _ _ _ => false
  | _ => true

/-- The `while` loop of `SMSService.wait_until_arrived`, fuel-indexed.
`env i` is the transport outcome of iteration `i`'s state check and
`clock i` its `(step_start, step_end)` pair of `datetime.now()` readings
(in seconds).  The inner call is made with `fail_silently := false`
(source line 408); the loop's own `fail_silently` only governs the
`except` clause.  The `time.sleep` between iterations (source lines
432-434) only consumes wall-clock time, which the clock oracle abstracts,
so it does not appear in the returned value. -/
def waitLoop (svc : SMSService) (handle_id : Option String)
    (fail_silently : Bool) (env : Nat → HttpOutcome) (clock : Nat → ℚ × ℚ) :
    Nat → Nat → Option ℚ → Option SMSResponse → WaitResult
  | 0, i, remaining_timeout, state_response =>
    if budgetAllows remaining_timeout then
      .outOfFuel remaining_timeout state_response i
    else .ret state_response i
  | fuel + 1, i, remaining_timeout, state_response =>
    if budgetAllows remaining_timeout then
      match (svc.check_sms_state handle_id remaining_timeout false (env i)).1 with
      | .error e =>
        if !e.is_timeout && !fail_silently then .raised e (i + 1)
        else .ret state_response (i + 1)
      | .ok none => .attrError (i + 1)
      | .ok (some resp) =>
        if resp.state = some STATE_ARRIVED then .ret (some resp) (i + 1)
        else
          match remaining_timeout with
          | none =>
            waitLoop svc handle_id fail_silently env clock fuel (i + 1)
              none (some resp)
          | some r =>
            let step_duration := (clock i).1 - (clock i).2
            waitLoop svc handle_id fail_silently env clock fuel (i + 1)
              (some (r - step_duration)) (some resp)
    else .ret state_response i

/-- `SMSService.wait_until_arrived`: the initial budget is
`timeout if timeout else self.timeout` (note: Python truthiness, so a
`0` timeout falls back to the client default), then the polling loop. -/
def SMSService.wait_until_arrived (svc : SMSService) (handle_id : Option String)
    (timeout : Option ℚ) (fail_silently : Bool) (env : Nat → HttpOutcome)
    (clock : Nat → ℚ × ℚ) (fuel : Nat) : WaitResult :=
  let remaining_timeout := if pyTruthyFloat timeout then timeout else svc.timeout
  waitLoop svc handle_id fail_silently env clock fuel 0 remaining_timeout none

/-- `SMS` object attributes relevant to `SMSService.send`. -/
structure SMS where
  destination : String
  text : String
  orig : Option String
  registered_delivery : Bool
  debug : Bool
  project : Option String
  encoding : Option String
  max_parts : Option Int
deriving DecidableEq, Repr

/-- A Python value of type `Union[str, bool, None]`, the return type of
`SMSService.send`. -/
inductive PyValue
  | str (s : String)
  | bool (b : Bool)
  | pyNone
deriving DecidableEq, Repr

/-- `SMSService.send`: call `put_sms` (re-raising any exception), then
return `put_response.handle_id if put_response else None` when
`sms.registered_delivery and not sms.debug`, and
`bool(put_response and put_response.is_ok)` otherwise.  (The mutation of
`sms.put_response` is not modelled; no claim reads it.) -/
def SMSService.send (svc : SMSService) (sms : SMS) (timeout : Option ℚ)
    (fail_silently : Bool) (outcome : HttpOutcome) :
    Except SMSServiceError PyValue :=
  match (svc.put_sms sms.destination sms.text sms.orig sms.registered_delivery
      sms.debug sms.project sms.encoding sms.max_parts timeout fail_silently
      outcome).1 with
  | .error e => .error e
  | .ok put_response =>
    if sms.registered_delivery && !sms.debug then
      .ok (match put_response with
        | some r =>
          match r.handle_id with
          | some h => .str h
          | none => .pyNone
        | none => .pyNone)
    else
      .ok (.bool (match put_response with
        | some r => r.is_ok
        | none => false))

/-! Spec-side description of the parsing contract, for comparison with
`SMSResponse.parse` (refinement): written from the spec's words, not from
the code. -/

/-- Does the line contain the separator character `'='`? -/
def hasSeparator (line : String) : Bool :=
  line.toList.contains '='

/-- The key/value pair a single attribute line denotes: the text before
the first `'='` and the remainder, both trimmed of surrounding
whitespace. -/
def linePair (line : String) : String × String :=
  let p := splitFirstEq line.toList
  (pyStrip (String.mk p.1), pyStrip (String.mk p.2))

/-- Spec: the attribute pairs come from the lines after the first that
contain `'='`, in order; lines without `'='` are skipped. -/
def specAttrPairs (text : String) : List (String × String) :=
  (((pySplitlines text).tail).filter hasSeparator).map linePair

/-- Spec: attribute iteration order matches the first-to-last appearance
of distinct keys (first-occurrence deduplication). -/
def specKeyOrder : List String → List String
  | [] => []
  | k :: rest => k :: specKeyOrder (rest.filter (fun x => x ≠ k))
termination_by l => l.length
decreasing_by
  simp only [List.length_cons]
  exact Nat.lt_succ_of_le (List.length_filter_le _ _)

/-- Spec: duplicate keys keep the last value — the value associated with
a key is the one of the last attribute line bearing that key. -/
def specLastValue (key : String) : List (String × String) → Option String
  | [] => none
  | p :: rest =>
    match specLastValue key rest with
    | some w => some w
    | none => if p.1 = key then some p.2 else none

/-! Concrete fixtures used by witnesses and counterexamples. -/

/-- A client with credentials configured and no default timeout. -/
def svcU : SMSService :=
  ⟨"put-url", "state-url", "", some "user", some "secret", none, none, none, none⟩

/-- A client with no credentials configured. -/
def svcNoCreds : SMSService :=
  ⟨"put-url", "state-url", "", none, some "secret", none, none, none, none⟩

/-- A transport environment in which every state check succeeds with a
`processed` (non-arrived) state. -/
def envProcessed : Nat → HttpOutcome :=
  fun _ => .response "REQUEST OK\nstate = processed"

/-- A clock under which iteration `i`'s state check runs from second `i`
to second `i + 1` (each attempt takes one second). -/
def clockUnit : Nat → ℚ × ℚ :=
  fun i => ((i : ℚ), (i : ℚ) + 1)

/-- The parsed packet for a `processed` state response. -/
def respProcessed : SMSResponse :=
  SMSResponse.parse "REQUEST OK\nstate = processed"

/-- A message with registered delivery requested and debug mode on. -/
def smsDebugReg : SMS :=
  ⟨"491700000000", "hello", none, true, true, none, none, none⟩

/-- A message with registered delivery requested and debug mode off. -/
def smsReg : SMS :=
  ⟨"491700000000", "hello", none, true, false, none, none, none⟩

/-! Helper lemmas. -/

/-- `_request` issues exactly one POST, with the given url, form data,
auth and timeout, whatever the outcome and the silence flag. -/
theorem requestApi_posts (url : String) (data : List (String × String))
    (auth : Option (String × String)) (timeout : Option ℚ)
    (fail_silently : Bool) (outcome : HttpOutcome) :
    (requestApi url data auth timeout fail_silently outcome).2 =
      [⟨url, data, auth, timeout⟩] := by
  cases outcome <;> cases fail_silently <;> simp [requestApi] <;> split <;> rfl

/-- The result (but not the POST log) of `_request` does not depend on
the timeout value: the timeout only bounds the transport's wall-clock
behaviour, which the outcome oracle abstracts. -/
theorem requestApi_result_timeout_irrel (url : String)
    (data : List (String × String)) (auth : Option (String × String))
    (t t' : Option ℚ) (fail_silently : Bool) (outcome : HttpOutcome) :
    (requestApi url data auth t fail_silently outcome).1 =
      (requestApi url data auth t' fail_silently outcome).1 := by
  cases outcome <;> cases fail_silently <;> simp [requestApi] <;> split <;> rfl

/-- The result of `check_sms_state` does not depend on the timeout
value. -/
theorem check_sms_state_result_timeout_irrel (svc : SMSService)
    (handle_id : Option String) (t t' : Option ℚ) (fail_silently : Bool)
    (outcome : HttpOutcome) :
    (svc.check_sms_state handle_id t fail_silently outcome).1 =
      (svc.check_sms_state handle_id t' fail_silently outcome).1 := by
  unfold SMSService.check_sms_state
  split
  · rfl
  · split
    · rfl
    · exact requestApi_result_timeout_irrel _ _ _ _ _ _ _

/-- If every inner state check succeeds with a non-arrived state, a loop
run entered with an absent budget never settles: the budget stays absent
and the top-of-loop guard never fails. -/
theorem waitLoop_none_budget_runs_forever (svc : SMSService)
    (handle_id : Option String) (fail_silently : Bool)
    (env : Nat → HttpOutcome) (clock : Nat → ℚ × ℚ)
    (hok : ∀ i, ∃ resp, (svc.check_sms_state handle_id none false (env i)).1 =
        Except.ok (some resp) ∧ resp.state ≠ some STATE_ARRIVED) :
    ∀ (fuel i : Nat) (state_response : Option SMSResponse),
      (waitLoop svc handle_id fail_silently env clock fuel i none
          state_response).isSettled = false := by
  intro fuel
  induction fuel with
  | zero =>
    intro i s
    simp [waitLoop, budgetAllows, WaitResult.isSettled]
  | succ n ih =>
    intro i s
    obtain ⟨resp, hresp, hst⟩ := hok i
    simp [waitLoop, budgetAllows, hresp, hst, ih]

/-- If every inner state check succeeds with a non-arrived state and
every attempt has non-negative elapsed wall-clock time, a loop run
entered with the guard satisfied never settles: the budget update
`remaining -= (step_start - step_end).total_seconds()` never decreases
the budget, so the guard never fails. -/
theorem waitLoop_notArrived_runs_forever (svc : SMSService)
    (handle_id : Option String) (fail_silently : Bool)
    (env : Nat → HttpOutcome) (clock : Nat → ℚ × ℚ)
    (hclock : ∀ i, (clock i).1 ≤ (clock i).2)
    (hok : ∀ i, ∃ resp, (svc.check_sms_state handle_id none false (env i)).1 =
        Except.ok (some resp) ∧ resp.state ≠ some STATE_ARRIVED) :
    ∀ (fuel i : Nat) (remaining : Option ℚ) (state_response : Option SMSResponse),
      budgetAllows remaining = true →
      (waitLoop svc handle_id fail_silently env clock fuel i remaining
          state_response).isSettled = false := by
  intro fuel
  induction fuel with
  | zero =>
    intro i remaining s hb
    simp [waitLoop, hb, WaitResult.isSettled]
  | succ n ih =>
    intro i remaining s hb
    obtain ⟨resp, hresp, hst⟩ := hok i
    have hresp' : (svc.check_sms_state handle_id remaining false (env i)).1 =
        Except.ok (some resp) := by
      rw [check_sms_state_result_timeout_irrel svc handle_id remaining none]
      exact hresp
    cases remaining with
    | none => simp [waitLoop, budgetAllows, hresp', hst, ih]
    | some r =>
      have hr : (0 : ℚ) < r := by simpa [budgetAllows] using hb
      have hr' : (0 : ℚ) < r - ((clock i).1 - (clock i).2) := by
        have := hclock i
        linarith
      have hb' : budgetAllows (some (r - ((clock i).1 - (clock i).2))) = true := by
        simpa [budgetAllows] using hr'
      simp [waitLoop, hb, hresp', hst, ih _ _ _ hb']

/-- Under `envProcessed`, every inner state check of the configured
client succeeds with the `processed` packet. -/
theorem check_processed_ok : ∀ i : Nat,
    (svcU.check_sms_state (some "h") none false (envProcessed i)).1 =
      Except.ok (some respProcessed) :=
  fun _ => rfl

/-- `parseLine` in terms of `hasSeparator` and `linePair`. -/
theorem parseLine_eq (d : List (String × String)) (line : String) :
    parseLine d line =
      if hasSeparator line then odInsert d (linePair line).1 (linePair line).2
      else d := rfl

/-- The loop over lines equals a fold of `odInsert` over the key/value
pairs of the separator-bearing lines. -/
theorem foldl_parseLine_eq :
    ∀ (lines : List String) (d : List (String × String)),
      lines.foldl parseLine d =
        ((lines.filter hasSeparator).map linePair).foldl
          (fun d p => odInsert d p.1 p.2) d
  | [], _ => rfl
  | l :: rest, d => by
    cases h : hasSeparator l with
    | true =>
      simp [List.filter_cons, h, parseLine_eq, foldl_parseLine_eq rest]
    | false =>
      simp [List.filter_cons, h, parseLine_eq, foldl_parseLine_eq rest]

/-- Replacing the value at a key leaves every key in place. -/
theorem map_replaceKey_fst (k v : String) :
    ∀ d : List (String × String),
      (d.map (fun p => if p.1 = k then (k, v) else p)).map Prod.fst =
        d.map Prod.fst
  | [] => rfl
  | q :: rest => by
    by_cases hq : q.1 = k <;> simp [hq, map_replaceKey_fst k v rest]

/-- Replacing the value at a key does not change which keys occur. -/
theorem map_replaceKey_any (k v x : String) :
    ∀ d : List (String × String),
      (d.map (fun p => if p.1 = k then (k, v) else p)).any
          (fun p => p.1 = x) =
        d.any (fun p => p.1 = x)
  | [] => rfl
  | q :: rest => by
    by_cases hq : q.1 = k <;> simp [hq, map_replaceKey_any k v x rest]

/-- Keys of an ordered-dict assignment: unchanged for an existing key,
appended for a new one. -/
theorem odInsert_keys (d : List (String × String)) (k v : String) :
    (odInsert d k v).map Prod.fst =
      if d.any (fun p => p.1 = k) then d.map Prod.fst
      else d.map Prod.fst ++ [k] := by
  unfold odInsert
  cases h : d.any (fun p => p.1 = k) with
  | true => rw [if_pos rfl, if_pos rfl, map_replaceKey_fst]
  | false =>
    rw [if_neg Bool.false_ne_true, if_neg Bool.false_ne_true]
    simp

/-- Key membership after an ordered-dict assignment. -/
theorem odInsert_any (d : List (String × String)) (k v x : String) :
    (odInsert d k v).any (fun p => p.1 = x) =
      (d.any (fun p => p.1 = x) || decide (k = x)) := by
  unfold odInsert
  cases h : d.any (fun p => p.1 = k) with
  | false =>
    rw [if_neg Bool.false_ne_true]
    simp [List.any_append]
  | true =>
    rw [if_pos rfl, map_replaceKey_any]
    by_cases hx : k = x
    · subst hx
      simp [h]
    · simp [hx]

/-- Key order of a fold of ordered-dict assignments: the keys of the
accumulator, then the first occurrences of the keys not already
present. -/
theorem foldl_odInsert_keys :
    ∀ (pairs d : List (String × String)),
      ((pairs.foldl (fun d p => odInsert d p.1 p.2) d).map Prod.fst) =
        d.map Prod.fst ++
          specKeyOrder ((pairs.map Prod.fst).filter
            (fun x => !(d.any (fun p => p.1 = x))))
  | [], d => by simp [specKeyOrder]
  | (k, v) :: rest, d => by
    rw [List.foldl_cons, foldl_odInsert_keys rest (odInsert d k v)]
    cases h : d.any (fun p => p.1 = k) with
    | true =>
      have hkeys : (odInsert d k v).map Prod.fst = d.map Prod.fst := by
        rw [odInsert_keys, h]
        simp
      have hfilter : (rest.map Prod.fst).filter
            (fun x => !((odInsert d k v).any (fun p => p.1 = x))) =
          (rest.map Prod.fst).filter
            (fun x => !(d.any (fun p => p.1 = x))) := by
        apply List.filter_congr
        intro x _
        rw [odInsert_any]
        by_cases hx : k = x
        · subst hx
          simp [h]
        · simp [hx]
      rw [hkeys, hfilter]
      simp [List.filter_cons, h]
    | false =>
      have hkeys : (odInsert d k v).map Prod.fst = d.map Prod.fst ++ [k] := by
        rw [odInsert_keys, h]
        simp
      have hfilter : (rest.map Prod.fst).filter
            (fun x => !((odInsert d k v).any (fun p => p.1 = x))) =
          ((rest.map Prod.fst).filter
            (fun x => !(d.any (fun p => p.1 = x)))).filter (fun x => x ≠ k) := by
        rw [List.filter_filter]
        apply List.filter_congr
        intro x _
        rw [odInsert_any]
        by_cases hx : x = k
        · subst hx
          simp
        · have hkx : ¬(k = x) := fun hkx => hx hkx.symm
          simp [hx, hkx]
      rw [hkeys, hfilter]
      simp [List.filter_cons, h, specKeyOrder]

/-- A replaced key is looked up with the new value. -/
theorem odFind_replaceKey_self (k v : String) :
    ∀ d : List (String × String), d.any (fun p => p.1 = k) = true →
      odFind (d.map (fun p => if p.1 = k then (k, v) else p)) k = some v
  | [], h => by simp at h
  | q :: rest, h => by
    by_cases hq : q.1 = k
    · simp [odFind, hq]
    · have hrest : rest.any (fun p => p.1 = k) = true := by
        simpa [hq] using h
      simp [odFind, hq, odFind_replaceKey_self k v rest hrest]

/-- Replacing the value at one key does not affect lookups of other
keys. -/
theorem odFind_replaceKey_other (k v key : String) (hk : ¬(k = key)) :
    ∀ d : List (String × String),
      odFind (d.map (fun p => if p.1 = k then (k, v) else p)) key =
        odFind d key
  | [] => rfl
  | q :: rest => by
    by_cases hq : q.1 = k
    · have h2 : ¬(q.1 = key) := by
        rw [hq]
        exact hk
      simp [odFind, hq, hk, h2, odFind_replaceKey_other k v key hk rest]
    · simp [odFind, hq, odFind_replaceKey_other k v key hk rest]

/-- Lookup in a list extended on the right by one entry. -/
theorem odFind_append (d : List (String × String)) (k v key : String) :
    odFind (d ++ [(k, v)]) key =
      (match odFind d key with
       | some w => some w
       | none => if k = key then some v else none) := by
  induction d with
  | nil => simp [odFind]
  | cons q rest ih => by_cases hq : q.1 = key <;> simp [odFind, hq, ih]

/-- A key occurring nowhere looks up to nothing. -/
theorem odFind_eq_none_of_not_any (k : String) :
    ∀ d : List (String × String), d.any (fun p => p.1 = k) = false →
      odFind d k = none
  | [], _ => rfl
  | q :: rest, h => by
    have hq : ¬(q.1 = k) := by
      intro hq
      simp [hq] at h
    have hrest : rest.any (fun p => p.1 = k) = false := by
      simpa [hq] using h
    simp [odFind, hq, odFind_eq_none_of_not_any k rest hrest]

/-- Lookup after an ordered-dict assignment: the assigned key maps to
the new value, all others are unchanged. -/
theorem odFind_odInsert (d : List (String × String)) (k v key : String) :
    odFind (odInsert d k v) key = if k = key then some v else odFind d key := by
  unfold odInsert
  cases h : d.any (fun p => p.1 = k) with
  | true =>
    rw [if_pos rfl]
    by_cases hk : k = key
    · subst hk
      rw [odFind_replaceKey_self k v d h, if_pos rfl]
    · rw [odFind_replaceKey_other k v key hk d, if_neg hk]
  | false =>
    rw [if_neg Bool.false_ne_true, odFind_append]
    by_cases hk : k = key
    · subst hk
      rw [odFind_eq_none_of_not_any k d h]
    · cases hd : odFind d key <;> simp [hd, hk]

/-- Lookup in a fold of ordered-dict assignments: the last assigned
value for the key, else the accumulator's value. -/
theorem foldl_odInsert_find :
    ∀ (pairs d : List (String × String)) (key : String),
      odFind (pairs.foldl (fun d p => odInsert d p.1 p.2) d) key =
        (match specLastValue key pairs with
         | some w => some w
         | none => odFind d key)
  | [], d, key => by simp [specLastValue]
  | (k, v) :: rest, d, key => by
    rw [List.foldl_cons, foldl_odInsert_find rest (odInsert d k v) key]
    cases hl : specLastValue key rest with
    | some w => simp [specLastValue, hl]
    | none =>
      by_cases hk : k = key <;>
        simp [specLastValue, hl, hk, odFind_odInsert]

/-! Claims. -/

/-- C5: For every single HTTP attempt, a status-level fault (HTTP error
status) is classified as `RequestError` and any other transport fault as
`CommunicationError`, never both or neither (the classification is a
single `kind` value, equal to `request` exactly when the fault is an
`HTTPError` and to `communication` exactly otherwise); and the resulting
error's `is_timeout` predicate is true exactly when the wrapped
underlying transport fault was a timeout. -/
theorem claim_C5_fault_classification (f : TransportFault) (url : String)
    (data : List (String × String)) (auth : Option (String × String))
    (timeout : Option ℚ) :
    requestApi url data auth timeout false (.fault f) =
      (Except.error (classifyFault f), [⟨url, data, auth, timeout⟩]) ∧
    ((classifyFault f).kind = ErrKind.request ↔ f.isHTTPError = true) ∧
    ((classifyFault f).kind = ErrKind.communication ↔ f.isHTTPError = false) ∧
    (classifyFault f).is_timeout = f.isTimeout := by
  refine ⟨rfl, ?_, ?_, rfl⟩ <;>
    cases hb : f.isHTTPError <;>
      simp [classifyFault, SMSServiceError.init, hb]

/-- C4: With `fail_silently=True`, the request layer catches a
`RequestError`/`CommunicationError` — whether from a transport fault
(HTTP-status or otherwise) or from a parsed response whose message is the
failure marker `ERROR` — and returns no result (`None`), discarding the
already-parsed packet; whereas `ConfigurationError` (in `put_sms`) and
`ValidationError` (in `check_sms_state`) are raised regardless of the
`fail_silently` flag. -/
theorem claim_C4_suppression (url : String) (data : List (String × String))
    (auth : Option (String × String)) (timeout : Option ℚ) :
    (∀ f : TransportFault,
      requestApi url data auth timeout true (.fault f) =
        (Except.ok none, [⟨url, data, auth, timeout⟩])) ∧
    (∀ text : String, (SMSResponse.parse text).is_error = true →
      requestApi url data auth timeout true (.response text) =
        (Except.ok none, [⟨url, data, auth, timeout⟩])) ∧
    (∀ (svc : SMSService),
      (pyTruthyStr svc.username && pyTruthyStr svc.password) = false →
      ∀ (destination text : String) (orig : Option String)
        (registered_delivery debug : Bool) (project encoding : Option String)
        (max_parts : Option Int) (t : Option ℚ) (fail_silently : Bool)
        (outcome : HttpOutcome),
        (svc.put_sms destination text orig registered_delivery debug project
            encoding max_parts t fail_silently outcome).1 =
          Except.error (SMSServiceError.init .configuration
            (some "Service credentials not defined") none)) ∧
    (∀ (svc : SMSService) (handle_id : Option String),
      (pyTruthyStr svc.username && pyTruthyStr svc.password) = true →
      pyTruthyStr handle_id = false →
      ∀ (t : Option ℚ) (fail_silently : Bool) (outcome : HttpOutcome),
        (svc.check_sms_state handle_id t fail_silently outcome).1 =
          Except.error (SMSServiceError.init .validation
            (some "Unable to check state of unsent SMS") none)) := by
  refine ⟨fun f => rfl, fun text herr => ?_, fun svc hcc => ?_,
    fun svc handle_id hcc hh t fs outcome => ?_⟩
  · simp [requestApi, herr]
  · intro destination text orig rd dbg project encoding mp t fs outcome
    simp [SMSService.put_sms, hcc]
  · simp [SMSService.check_sms_state, hcc, hh]

/-- Witness for C4 at concrete inputs: an application-level `ERROR`
response is suppressed to a `None` result, and a missing-credentials
submit raises `ConfigurationError` even with `fail_silently=True`. -/
theorem claim_C4_suppression_witness :
    requestApi "u" [] none none true (.response "ERROR\nerror = bad") =
      (Except.ok none, [⟨"u", [], none, none⟩]) ∧
    (svcNoCreds.put_sms "491700000000" "hello" none true false none none none
        none true (HttpOutcome.response "REQUEST OK")).1 =
      Except.error (SMSServiceError.init .configuration
        (some "Service credentials not defined") none) :=
  ⟨(claim_C4_suppression "u" [] none none).2.1 "ERROR\nerror = bad" (by decide),
   (claim_C4_suppression "u" [] none none).2.2.1 svcNoCreds (by decide)
     "491700000000" "hello" none true false none none none none true
     (HttpOutcome.response "REQUEST OK")⟩

/-- C6: A submit attempt (`put_sms`) on a client whose username or
password is empty or unset raises `ConfigurationError` before any network
call (the returned POST log is empty — the network layer is never
invoked), regardless of the `fail_silently` flag and of whatever the
transport would have answered. -/
theorem claim_C6_credentials_checked_first (svc : SMSService)
    (h : pyTruthyStr svc.username = false ∨ pyTruthyStr svc.password = false) :
    ∀ (destination text : String) (orig : Option String)
      (registered_delivery debug : Bool) (project encoding : Option String)
      (max_parts : Option Int) (timeout : Option ℚ) (fail_silently : Bool)
      (outcome : HttpOutcome),
      svc.put_sms destination text orig registered_delivery debug project
          encoding max_parts timeout fail_silently outcome =
        (Except.error (SMSServiceError.init .configuration
          (some "Service credentials not defined") none), []) := by
  intro destination text orig rd dbg project encoding mp timeout fs outcome
  have hcc : (pyTruthyStr svc.username && pyTruthyStr svc.password) = false := by
    rcases h with h | h <;> simp [h]
  simp [SMSService.put_sms, hcc]

/-- Witness for C6: a client with no username, submitting with
`fail_silently=True`, raises `ConfigurationError` and issues no POST. -/
theorem claim_C6_credentials_checked_first_witness :
    svcNoCreds.put_sms "491700000000" "hello" none true false none none none
        none true (HttpOutcome.response "REQUEST OK") =
      (Except.error (SMSServiceError.init .configuration
        (some "Service credentials not defined") none), []) :=
  claim_C6_credentials_checked_first svcNoCreds (Or.inl rfl) "491700000000"
    "hello" none true false none none none none true
    (HttpOutcome.response "REQUEST OK")

/-- C7: A state-check attempt (`check_sms_state`) with credentials
present but an empty or absent handle raises `ValidationError` before any
network call (the returned POST log is empty), regardless of the
`fail_silently` flag and of whatever the transport would have answered. -/
theorem claim_C7_handle_checked (svc : SMSService) (handle_id : Option String)
    (hcreds : (pyTruthyStr svc.username && pyTruthyStr svc.password) = true)
    (hh : pyTruthyStr handle_id = false) :
    ∀ (timeout : Option ℚ) (fail_silently : Bool) (outcome : HttpOutcome),
      svc.check_sms_state handle_id timeout fail_silently outcome =
        (Except.error (SMSServiceError.init .validation
          (some "Unable to check state of unsent SMS") none), []) := by
  intro timeout fs outcome
  simp [SMSService.check_sms_state, hcreds, hh]

/-- Witness for C7: a configured client checking the state of an absent
handle raises `ValidationError` and issues no POST. -/
theorem claim_C7_handle_checked_witness :
    svcU.check_sms_state none none true (HttpOutcome.response "REQUEST OK") =
      (Except.error (SMSServiceError.init .validation
        (some "Unable to check state of unsent SMS") none), []) :=
  claim_C7_handle_checked svcU none rfl rfl none true
    (HttpOutcome.response "REQUEST OK")

/-- C1 (refuted — the code updates the budget in the wrong direction):
one loop iteration of `wait_until_arrived` with remaining budget 10 s,
whose state-check attempt runs from second 0 to second 1 (elapsed 1 s)
and observes the non-terminal state `processed`, leaves the remaining
budget at 11 s: `step_duration = step_start - step_end` negates the
elapsed duration, so `remaining_timeout -= step_duration.total_seconds()`
adds it.  The budget increases (10 < 11) and differs from the claimed
previous-minus-elapsed value (11 ≠ 10 − 1 = 9). -/
theorem claim_C1_budget_update_sign :
    waitLoop svcU (some "h") false envProcessed clockUnit 1 0 (some 10) none =
      WaitResult.outOfFuel (some 11) (some respProcessed) 1 ∧
    (10 : ℚ) < 11 ∧ (11 : ℚ) ≠ 10 - 1 := by
  refine ⟨?_, by norm_num, by norm_num⟩
  simp [waitLoop, budgetAllows, svcU, envProcessed, clockUnit, respProcessed,
    SMSService.check_sms_state, pyTruthyStr, requestApi]
  norm_num
  decide

/-- C2 (refuted — the loop never terminates): a `wait_until_arrived`
call with the present, positive, finite budget 1/10 s (smaller than the
0.5 s minimum poll interval), in which every inner state check succeeds
with state `processed` and takes one second, is still looping after any
number of iterations: because the budget update adds the elapsed time
instead of subtracting it, the top-of-loop guard `remaining_timeout > 0`
never fails. -/
theorem claim_C2_small_budget_loop_never_terminates :
    ∀ fuel : Nat,
      (svcU.wait_until_arrived (some "h") (some (1/10)) false envProcessed
          clockUnit fuel).isSettled = false := by
  intro fuel
  have hclock : ∀ i, (clockUnit i).1 ≤ (clockUnit i).2 := by
    intro i
    simp [clockUnit]
  have hok : ∀ i, ∃ resp, (svcU.check_sms_state (some "h") none false
      (envProcessed i)).1 = Except.ok (some resp) ∧
      resp.state ≠ some STATE_ARRIVED := by
    intro i
    exact ⟨respProcessed, check_processed_ok i, by decide⟩
  have h := waitLoop_notArrived_runs_forever svcU (some "h") false envProcessed
    clockUnit hclock hok fuel 0 (some (1/10)) none (by norm_num [budgetAllows])
  have hp : pyTruthyFloat (some ((1 : ℚ)/10)) = true := by
    norm_num [pyTruthyFloat]
  unfold SMSService.wait_until_arrived
  rw [hp]
  simpa using h

/-- C3: inside `wait_until_arrived`, every inner per-attempt state check
is made with `fail_silently=False` (transcribed at `waitLoop`); if the
inner check of iteration `i` raises an `SMSServiceError` `e` while the
guard holds, then (a) if `e` is not a timeout and the loop's silent flag
is false, `e` propagates out and the attempt count is `i + 1` — no
further attempts occur; (b) if `e` is a timeout or the silent flag is
true, the loop stops immediately, returning the last observed state
result (possibly none), again with no further attempts. -/
theorem claim_C3_error_policy (svc : SMSService) (handle_id : Option String)
    (fail_silently : Bool) (env : Nat → HttpOutcome) (clock : Nat → ℚ × ℚ)
    (fuel i : Nat) (remaining : Option ℚ) (state_response : Option SMSResponse)
    (e : SMSServiceError)
    (hguard : budgetAllows remaining = true)
    (herr : (svc.check_sms_state handle_id remaining false (env i)).1 =
      Except.error e) :
    (e.is_timeout = false → fail_silently = false →
      waitLoop svc handle_id fail_silently env clock (fuel + 1) i remaining
          state_response =
        WaitResult.raised e (i + 1)) ∧
    (e.is_timeout = true ∨ fail_silently = true →
      waitLoop svc handle_id fail_silently env clock (fuel + 1) i remaining
          state_response =
        WaitResult.ret state_response (i + 1)) := by
  constructor
  · intro ht hf
    simp [waitLoop, hguard, herr, ht, hf]
  · intro h
    rcases h with ht | hf
    · simp [waitLoop, hguard, herr, ht]
    · simp [waitLoop, hguard, herr, hf]

/-- Witness for C3: a client without credentials makes the inner check
raise a (non-timeout) `ConfigurationError`; with the loop's silent flag
false it propagates out of the first iteration. -/
theorem claim_C3_error_policy_witness :
    waitLoop svcNoCreds (some "h") false envProcessed clockUnit 1 0 none none =
      WaitResult.raised (SMSServiceError.init .configuration
        (some "Service credentials not defined") none) 1 :=
  (claim_C3_error_policy svcNoCreds (some "h") false envProcessed clockUnit 0 0
      none none _ rfl rfl).1 rfl rfl

/-- C10: `wait_until_arrived` with `timeout = 0` initializes the budget
from the client default (`timeout if timeout else self.timeout` —
Python truthiness), so with no client default the loop polls without
bound instead of returning immediately; whereas `put_sms` and
`check_sms_state` resolve the timeout with `if timeout is None`, so a
`0` call-site timeout is kept and every POST they issue carries
timeout 0, not the client default. -/
theorem claim_C10_zero_timeout_falls_back (svc : SMSService)
    (handle_id : Option String) (fail_silently : Bool)
    (env : Nat → HttpOutcome) (clock : Nat → ℚ × ℚ) :
    (∀ fuel, svc.wait_until_arrived handle_id (some 0) fail_silently env clock
        fuel =
      waitLoop svc handle_id fail_silently env clock fuel 0 svc.timeout none) ∧
    (svc.timeout = none →
      (∀ i, ∃ resp, (svc.check_sms_state handle_id none false (env i)).1 =
          Except.ok (some resp) ∧ resp.state ≠ some STATE_ARRIVED) →
      ∀ fuel, (svc.wait_until_arrived handle_id (some 0) fail_silently env
          clock fuel).isSettled = false) ∧
    (∀ (destination text : String) (orig : Option String)
        (registered_delivery debug : Bool) (project encoding : Option String)
        (max_parts : Option Int) (fs : Bool) (outcome : HttpOutcome),
      (svc.put_sms destination text orig registered_delivery debug project
          encoding max_parts (some 0) fs outcome).2.all
        (fun p => p.timeout = some 0) = true) ∧
    (∀ (fs : Bool) (outcome : HttpOutcome),
      (svc.check_sms_state handle_id (some 0) fs outcome).2.all
        (fun p => p.timeout = some 0) = true) := by
  refine ⟨?_, ?_, ?_, ?_⟩
  · intro fuel
    simp [SMSService.wait_until_arrived, pyTruthyFloat]
  · intro ht hok fuel
    have h := waitLoop_none_budget_runs_forever svc handle_id fail_silently env
      clock hok fuel 0 none
    simpa [SMSService.wait_until_arrived, pyTruthyFloat, ht] using h
  · intro destination text orig rd dbg project encoding mp fs outcome
    cases hcc : (pyTruthyStr svc.username && pyTruthyStr svc.password) with
    | false => simp [SMSService.put_sms, hcc]
    | true => simp [SMSService.put_sms, hcc, requestApi_posts]
  · intro fs outcome
    unfold SMSService.check_sms_state
    split
    · rfl
    · split
      · rfl
      · simp [requestApi_posts]

/-- Witness for C10: with no client default timeout, a `timeout = 0`
wait is still polling after 5 iterations, and a `timeout = 0` state
check POSTs with timeout 0. -/
theorem claim_C10_zero_timeout_falls_back_witness :
    (svcU.wait_until_arrived (some "h") (some 0) false envProcessed clockUnit
        5).isSettled = false ∧
    (svcU.check_sms_state (some "h") (some 0) false
        (HttpOutcome.response "REQUEST OK")).2.all
      (fun p => p.timeout = some 0) = true :=
  ⟨(claim_C10_zero_timeout_falls_back svcU (some "h") false envProcessed
      clockUnit).2.1 rfl
      (fun i => ⟨respProcessed, check_processed_ok i, by decide⟩) 5,
   (claim_C10_zero_timeout_falls_back svcU (some "h") false envProcessed
      clockUnit).2.2.2 false (HttpOutcome.response "REQUEST OK")⟩

/-- C8: for every raw text input, parsing is total (`SMSResponse.parse`
is a function) and yields: a message equal to the first line (empty
string for empty input); attributes drawn only from the lines after the
first that contain `'='` (others are skipped), split at the first `'='`
with key and value trimmed — with iteration order the first appearance
of distinct keys and duplicate keys keeping the last value; and `is_ok`
holds iff the message is `REQUEST OK`, `is_error` iff it is `ERROR`. -/
theorem claim_C8_parse_contract (text : String) :
    (SMSResponse.parse text).message = (pySplitlines text).headD "" ∧
    (SMSResponse.parse text).data.map Prod.fst =
      specKeyOrder ((specAttrPairs text).map Prod.fst) ∧
    (∀ key, (SMSResponse.parse text).get key =
      specLastValue key (specAttrPairs text)) ∧
    ((SMSResponse.parse text).is_ok = true ↔
      (SMSResponse.parse text).message = "REQUEST OK") ∧
    ((SMSResponse.parse text).is_error = true ↔
      (SMSResponse.parse text).message = "ERROR") := by
  refine ⟨rfl, ?_, ?_, ?_, ?_⟩
  · show ((pySplitlines text).tail.foldl parseLine []).map Prod.fst = _
    rw [foldl_parseLine_eq, foldl_odInsert_keys]
    simp [specAttrPairs]
  · intro key
    show odFind ((pySplitlines text).tail.foldl parseLine []) key = _
    rw [foldl_parseLine_eq, foldl_odInsert_find]
    cases hl : specLastValue key
        (((pySplitlines text).tail.filter hasSeparator).map linePair) <;>
      simp [specAttrPairs, hl, odFind]
  · simp [SMSResponse.is_ok, MESSAGE_OK]
  · simp [SMSResponse.is_error, MESSAGE_ERROR]

/-- C9 counterexample: a message that requests registered delivery but
has debug mode on is answered with the boolean success flag, not the
response's handle identifier — `send` returns the handle only under
`sms.registered_delivery and not sms.debug`. -/
theorem claim_C9_counterexample :
    smsDebugReg.registered_delivery = true ∧
    svcU.send smsDebugReg none false
        (HttpOutcome.response "REQUEST OK\nhandle = h1") =
      Except.ok (PyValue.bool true) ∧
    (SMSResponse.parse "REQUEST OK\nhandle = h1").handle_id = some "h1" ∧
    PyValue.bool true ≠ PyValue.str "h1" :=
  ⟨rfl, rfl, rfl, by decide⟩

/-- C9 (amended): for every successful call of `send` whose submit
produced a response packet, the returned value is the packet's handle
identifier whenever the message requests registered delivery AND debug
mode is off, and the boolean success flag (`is_ok`) otherwise — i.e.,
when delivery registration was not requested or debug mode is on. -/
theorem claim_C9_send_result_shape (svc : SMSService) (sms : SMS)
    (timeout : Option ℚ) (fail_silently : Bool) (outcome : HttpOutcome)
    (r : SMSResponse)
    (hput : (svc.put_sms sms.destination sms.text sms.orig
        sms.registered_delivery sms.debug sms.project sms.encoding
        sms.max_parts timeout fail_silently outcome).1 = Except.ok (some r)) :
    (sms.registered_delivery = true → sms.debug = false →
      svc.send sms timeout fail_silently outcome =
        Except.ok (match r.handle_id with
          | some h => PyValue.str h
          | none => PyValue.pyNone)) ∧
    (sms.registered_delivery = false ∨ sms.debug = true →
      svc.send sms timeout fail_silently outcome =
        Except.ok (PyValue.bool r.is_ok)) := by
  constructor
  · intro hrd hdbg
    rw [hrd, hdbg] at hput
    simp [SMSService.send, hrd, hdbg, hput]
  · intro h
    rcases h with hrd | hdbg
    · rw [hrd] at hput
      simp [SMSService.send, hrd, hput]
    · rw [hdbg] at hput
      simp [SMSService.send, hdbg, hput]

/-- Witness for the amended C9: registered delivery, debug off — the
handle identifier string is returned. -/
theorem claim_C9_send_result_shape_witness :
    svcU.send smsReg none false
        (HttpOutcome.response "REQUEST OK\nhandle = h1") =
      Except.ok (PyValue.str "h1") :=
  (claim_C9_send_result_shape svcU smsReg none false
      (HttpOutcome.response "REQUEST OK\nhandle = h1")
      (SMSResponse.parse "REQUEST OK\nhandle = h1") rfl).1 rfl rfl

end SmsPlusserver
